import Mathlib

/-!
Shallow embedding of the `Organoid` simulation core from `drylab.py`: an
Izhikevich-style spiking-neuron population with conductance synapses, midpoint
integration, a one-tick spike-reset protocol, and an optional triplet-STDP
weight update.

Modelling conventions.  Machine floats are modelled by real numbers (exact
arithmetic).  A numpy array of shape `(N,)` is a function `Fin N → ℝ`; the
packed 4×N state buffer `VUA` is `Fin 4 → Fin N → ℝ` (row 0 = `V`, row 1 =
`U`, row 2 = `A`, row 3 = `Adot`); the 3×N STDP trace matrix is
`Fin 3 → Fin N → ℝ`.  Multiplying an array by a scalar is modelled by `•`.
Boolean numpy masks are `Fin N → Bool`.  The raw, possibly ill-shaped inputs
of `__init__` are modelled separately by lists, so that length mismatches can
be expressed.
-/

noncomputable section

/-- State and parameters of one `Organoid` object, mirroring the attributes
assigned by `Organoid.__init__` in `drylab.py` (the optional `XY` positions
are omitted: they are never read by the dynamics). -/
structure Organoid (N : ℕ) where
  a : Fin N → ℝ
  b : Fin N → ℝ
  c : Fin N → ℝ
  d : Fin N → ℝ
  C : Fin N → ℝ
  k : Fin N → ℝ
  Vr : Fin N → ℝ
  Vt : Fin N → ℝ
  Vp : Fin N → ℝ
  Vn : Fin N → ℝ
  tau : Fin N → ℝ
  G : Fin N → Fin N → ℝ
  VUA : Fin 4 → Fin N → ℝ
  fired : Fin N → Bool
  do_stdp : Bool
  traces : Fin 3 → Fin N → ℝ
  tau_stdp : Fin 3 → ℝ
  Aplus : ℝ
  Aminus : ℝ

variable {N : ℕ}

/-- View `V = VUA[0,:]` (membrane voltage). -/
def Organoid.V (o : Organoid N) : Fin N → ℝ := o.VUA 0

/-- View `U = VUA[1,:]` (recovery current). -/
def Organoid.U (o : Organoid N) : Fin N → ℝ := o.VUA 1

/-- View `A = VUA[2,:]` (synaptic activation). -/
def Organoid.A (o : Organoid N) : Fin N → ℝ := o.VUA 2

/-- View `Adot = VUA[3,:]` (synaptic activation derivative). -/
def Organoid.Adot (o : Organoid N) : Fin N → ℝ := o.VUA 3

/-- Embedding of `Organoid.reset`:
`VUA[0,:] = Vr`; `fired = V >= Vp` (with `V` already set to `Vr`);
`VUA[1:,:] = 0`.  The STDP traces are not touched. -/
def Organoid.reset (o : Organoid N) : Organoid N :=
  { o with
    VUA := fun r i => if r = 0 then o.Vr i else 0
    fired := fun i => decide (o.Vr i ≥ o.Vp i) }

/-- Embedding of `Organoid.VUAdot`: the derivative of the packed state.
`NAcurrent = k*(V - Vr)*(V - Vt)`;
`syncurrent = G@(A * Vn) - (G@A) * V`;
row 0: `(NAcurrent - U + syncurrent + Iin) / C`;
row 1: `a * (b*(V - Vr) - U)`;
row 2: `Adot / tau`;
row 3: `-(A + 2*Adot) / tau`. -/
def VUAdot (o : Organoid N) (Iin : Fin N → ℝ) : Fin 4 → Fin N → ℝ :=
  fun r i =>
    if r = 0 then
      (o.k i * (o.V i - o.Vr i) * (o.V i - o.Vt i) - o.U i
        + ((∑ j, o.G i j * (o.A j * o.Vn j)) - (∑ j, o.G i j * o.A j) * o.V i)
        + Iin i) / o.C i
    else if r = 1 then
      o.a i * (o.b i * (o.V i - o.Vr i) - o.U i)
    else if r = 2 then
      o.Adot i / o.tau i
    else
      -(o.A i + 2 * o.Adot i) / o.tau i

/-- Phase 1 of `Organoid.step`: the pre-step correction applied to the cells
recorded in `self.fired` by the previous step (or by `reset`):
`V[fired] = c[fired]`; `U[fired] += d[fired]`; `Adot[fired] += 1`. -/
def stepFired (o : Organoid N) : Organoid N :=
  { o with
    VUA := fun r i =>
      if o.fired i then
        if r = 0 then o.c i
        else if r = 1 then o.U i + o.d i
        else if r = 3 then o.Adot i + 1
        else o.VUA r i
      else o.VUA r i }

/-- Phase 2 of `Organoid.step`: the STDP block, executed only when
`do_stdp` holds.  With `any = fired.any()`:
if `any`, `G[:,fired] -= Aminus * traces[1,fired]` and then
`G[fired,:] += Aplus * (traces[0,:] * traces[2,fired,None])`
(both reading the traces before this step's decay);
in every case `traces *= exp(dt / tau_stdp)`;
finally, if `any`, `traces[:,fired] += 1`. -/
def stepSTDP (o : Organoid N) (dt : ℝ) : Organoid N :=
  if o.do_stdp then
    let anyF : Bool := decide (∃ i, o.fired i = true)
    let G1 : Fin N → Fin N → ℝ :=
      if anyF then
        fun i j => if o.fired j then o.G i j - o.Aminus * o.traces 1 j else o.G i j
      else o.G
    let G2 : Fin N → Fin N → ℝ :=
      if anyF then
        fun i j =>
          if o.fired i then G1 i j + o.Aplus * (o.traces 0 j * o.traces 2 i)
          else G1 i j
      else G1
    let tr1 : Fin 3 → Fin N → ℝ :=
      fun r i => o.traces r i * Real.exp (dt / o.tau_stdp r)
    let tr2 : Fin 3 → Fin N → ℝ :=
      if anyF then fun r i => if o.fired i then tr1 r i + 1 else tr1 r i
      else tr1
    { o with G := G2, traces := tr2 }
  else o

/-- Phase 3 of `Organoid.step`: the in-place midpoint integration exactly as
coded: `k1 = VUAdot(Iin)`; `VUA += k1 * dt/2`; `k2 = VUAdot(Iin)` (on the
half-advanced buffer); `VUA += k2*dt - k1*dt/2`.  Returns the final buffer. -/
def integrateVUA (o : Organoid N) (dt : ℝ) (Iin : Fin N → ℝ) : Fin 4 → Fin N → ℝ :=
  let k1 := VUAdot o Iin
  let half := o.VUA + (dt / 2) • k1
  let k2 := VUAdot { o with VUA := half } Iin
  half + dt • k2 - (dt / 2) • k1

/-- Phase 4 of `Organoid.step`: spike detection and peak clamp:
`fired = V >= Vp`; `V[fired] = Vp[fired]`. -/
def stepDetect (o : Organoid N) : Organoid N :=
  let newFired : Fin N → Bool := fun i => decide (o.V i ≥ o.Vp i)
  { o with
    fired := newFired
    VUA := fun r i => if r = 0 ∧ newFired i = true then o.Vp i else o.VUA r i }

/-- Embedding of `Organoid.step dt Iin`: pre-step spike correction, optional
STDP block, midpoint integration, then spike detection and clamping. -/
def Organoid.step (o : Organoid N) (dt : ℝ) (Iin : Fin N → ℝ) : Organoid N :=
  let o2 := stepSTDP (stepFired o) dt
  stepDetect { o2 with VUA := integrateVUA o2 dt Iin }

/-- Embedding of a well-shaped `Organoid.__init__` call (all arrays already
of length N): records the parameters, zero `VUA`, zero `traces`,
`tau_stdp = [tau_plus, tau_minus, tau_y]`, then calls `reset`. -/
def mkOrganoid (a b c d C k Vr Vt Vp Vn tau : Fin N → ℝ) (G : Fin N → Fin N → ℝ)
    (do_stdp : Bool) (tau_plus tau_minus tau_y Aplus Aminus : ℝ) : Organoid N :=
  Organoid.reset
    { a := a, b := b, c := c, d := d, C := C, k := k, Vr := Vr, Vt := Vt
      Vp := Vp, Vn := Vn, tau := tau, G := G
      VUA := fun _ _ => 0
      fired := fun _ => false
      do_stdp := do_stdp
      traces := fun _ _ => 0
      tau_stdp := fun r => if r = 0 then tau_plus else if r = 1 then tau_minus else tau_y
      Aplus := Aplus, Aminus := Aminus }

/-- Run a sequence of `(dt, Iin)` step calls from a given state. -/
def runSteps (o : Organoid N) : List (ℝ × (Fin N → ℝ)) → Organoid N
  | [] => o
  | di :: rest => runSteps (o.step di.1 di.2) rest

/-- Reference midpoint scheme, following the specification's words:
`k1 = DerivativeFunction(state, Iin)`; `state_half = state + k1*dt/2`;
`k2 = DerivativeFunction(state_half, Iin)`; result `state + k2*dt`. -/
def midpointSpec (o : Organoid N) (dt : ℝ) (Iin : Fin N → ℝ) : Fin 4 → Fin N → ℝ :=
  let k1 := VUAdot o Iin
  let stateHalf := o.VUA + (dt / 2) • k1
  let k2 := VUAdot { o with VUA := stateHalf } Iin
  o.VUA + dt • k2

/-! ### Raw construction over lists

`Organoid.__init__` itself checks no shapes: it converts each argument with
`np.asarray`, reads `N = G.shape[0]`, allocates `VUA = zeros((4,N))` and
calls `reset()`.  The only operations there that can raise are the numpy
broadcasts inside `reset`: the assignment `VUA[0,:] = Vr` (needs
`len(Vr) ∈ {N, 1}`) and the comparison `V >= Vp` on the length-N `V`. -/

/-- Numpy broadcast of a 1-D array onto a fixed length-`n` target, as used by
the assignment `VUA[0,:] = Vr`: succeeds iff the array has length `n` or
length 1 (scalar extension); otherwise the assignment raises. -/
def broadcastTo (v : List ℝ) (n : ℕ) : Option (List ℝ) :=
  if v.length = n then some v
  else if v.length = 1 then some (List.replicate n v.headI)
  else none

/-- Numpy elementwise comparison `v >= w` of two 1-D arrays with
broadcasting: defined when the lengths agree or either is 1, and raising
otherwise. -/
def geBroadcast (v w : List ℝ) : Option (List Bool) :=
  if v.length = w.length then
    some ((v.zip w).map fun p => decide (p.1 ≥ p.2))
  else if w.length = 1 then some (v.map fun x => decide (x ≥ w.headI))
  else if v.length = 1 then some (w.map fun y => decide (v.headI ≥ y))
  else none

/-- The attributes of a raw constructed object, with arrays kept as lists of
whatever lengths the caller supplied (`G` as its list of rows). -/
structure PyOrganoid where
  G : List (List ℝ)
  a : List ℝ
  b : List ℝ
  c : List ℝ
  d : List ℝ
  C : List ℝ
  k : List ℝ
  Vr : List ℝ
  Vt : List ℝ
  Vp : List ℝ
  Vn : List ℝ
  tau : List ℝ
  N : ℕ
  V : List ℝ
  U : List ℝ
  A : List ℝ
  Adot : List ℝ
  fired : List Bool
  do_stdp : Bool
  traces : List (List ℝ)

/-- Embedding of `Organoid.__init__` on raw inputs.  `N = G.shape[0]` is the
number of rows of `G`; no length of any coefficient vector is ever compared
with `N`, and the column count of `G` is never examined.  The constructor
can only fail inside the `reset()` call it ends with, via the two numpy
broadcasts modelled by `broadcastTo` and `geBroadcast`; any such failure is
a numpy `ValueError`, not a dedicated dimension check. -/
def initPy (G : List (List ℝ)) (a b c d C k Vr Vt Vp Vn tau : List ℝ)
    (do_stdp : Bool) : Except String PyOrganoid :=
  let N := G.length
  match broadcastTo Vr N with
  | none => .error "ValueError: could not broadcast input array"
  | some V =>
    match geBroadcast V Vp with
    | none => .error "ValueError: operands could not be broadcast together"
    | some fired =>
      .ok { G := G, a := a, b := b, c := c, d := d, C := C, k := k
            Vr := Vr, Vt := Vt, Vp := Vp, Vn := Vn, tau := tau
            N := N, V := V
            U := List.replicate N 0, A := List.replicate N 0
            Adot := List.replicate N 0
            fired := fired, do_stdp := do_stdp
            traces := List.replicate 3 (List.replicate N 0) }

/-! ### Concrete instances used as test inputs -/

/-- Constant-zero length-1 vector (used both as parameter and as input
current for one-neuron instances). -/
def zed : Fin 1 → ℝ := fun _ => 0

/-- One-neuron organoid with STDP enabled and the default STDP constants
(`tau_plus = 15`, `tau_minus = 35`, `tau_y = 115`, `Aplus = 6.5e-3`,
`Aminus = 7e-3`).  With `Vr = Vp = 0` the neuron counts as fired directly
after construction, and `c = -5` keeps it silent on later steps. -/
def oStdp : Organoid 1 :=
  mkOrganoid zed zed (fun _ => -5) zed (fun _ => 1) zed zed zed zed zed (fun _ => 1)
    (fun _ _ => 0) true 15 35 115 (13 / 2000) (7 / 1000)

/-- One-neuron organoid without STDP; every parameter zero except `C = 1`
and `tau = 1`.  With `Vr = Vp = 0` its voltage sits exactly at the peak, so
every step detects it as fired. -/
def oWit : Organoid 1 :=
  mkOrganoid zed zed zed zed (fun _ => 1) zed zed zed zed zed (fun _ => 1)
    (fun _ _ => 0) false 15 35 115 (13 / 2000) (7 / 1000)

/-- One-neuron organoid without STDP and with `Vr = 0 < 1 = Vp`: the normal
quiescent regime. -/
def oQuiet : Organoid 1 :=
  mkOrganoid zed zed zed zed (fun _ => 1) zed zed zed (fun _ => 1) zed (fun _ => 1)
    (fun _ _ => 0) false 15 35 115 (13 / 2000) (7 / 1000)

/-- A one-neuron phase state with `Adot = 1` and `tau = 2` (all other
phase variables zero), used to evaluate the derivative function. -/
def oHalf : Organoid 1 :=
  { oWit with VUA := fun r _ => if r = 3 then 1 else 0, tau := fun _ => 2 }

/-- A 3×2 (non-square) weight matrix given as its list of rows. -/
def gBad : List (List ℝ) := [[0, 0], [0, 0], [0, 0]]

/-- A length-3 zero vector. -/
def vec3 : List ℝ := [0, 0, 0]

/-- A length-4 zero vector. -/
def vec4 : List ℝ := [0, 0, 0, 0]

/-! ### Field-preservation helper lemmas -/

theorem stepFired_c (o : Organoid N) : (stepFired o).c = o.c := rfl

theorem stepFired_d (o : Organoid N) : (stepFired o).d = o.d := rfl

theorem stepFired_Vp (o : Organoid N) : (stepFired o).Vp = o.Vp := rfl

theorem stepFired_fired (o : Organoid N) : (stepFired o).fired = o.fired := rfl

theorem stepFired_G (o : Organoid N) : (stepFired o).G = o.G := rfl

theorem stepFired_traces (o : Organoid N) : (stepFired o).traces = o.traces := rfl

theorem stepSTDP_c (o : Organoid N) (dt : ℝ) : (stepSTDP o dt).c = o.c := by
  unfold stepSTDP; split <;> rfl

theorem stepSTDP_d (o : Organoid N) (dt : ℝ) : (stepSTDP o dt).d = o.d := by
  unfold stepSTDP; split <;> rfl

theorem stepSTDP_Vp (o : Organoid N) (dt : ℝ) : (stepSTDP o dt).Vp = o.Vp := by
  unfold stepSTDP; split <;> rfl

theorem stepSTDP_VUA (o : Organoid N) (dt : ℝ) : (stepSTDP o dt).VUA = o.VUA := by
  unfold stepSTDP; split <;> rfl

theorem stepSTDP_fired (o : Organoid N) (dt : ℝ) : (stepSTDP o dt).fired = o.fired := by
  unfold stepSTDP; split <;> rfl

theorem step_c (o : Organoid N) (dt : ℝ) (Iin : Fin N → ℝ) : (o.step dt Iin).c = o.c := by
  unfold Organoid.step stepDetect
  simp only
  rw [stepSTDP_c, stepFired_c]

theorem step_d (o : Organoid N) (dt : ℝ) (Iin : Fin N → ℝ) : (o.step dt Iin).d = o.d := by
  unfold Organoid.step stepDetect
  simp only
  rw [stepSTDP_d, stepFired_d]

theorem step_Vp (o : Organoid N) (dt : ℝ) (Iin : Fin N → ℝ) : (o.step dt Iin).Vp = o.Vp := by
  unfold Organoid.step stepDetect
  simp only
  rw [stepSTDP_Vp, stepFired_Vp]

/-! ### Claim theorems -/

/-- C6: the in-place integration of `step` — add `k1*dt/2` to the state
buffer, evaluate `k2` on the half-advanced buffer, then add
`k2*dt - k1*dt/2` — produces, in exact arithmetic, the same final state as
the reference midpoint scheme `state + k2*dt` with
`k2 = VUAdot(state + k1*dt/2, Iin)` and `k1 = VUAdot(state, Iin)`, for
every state, `dt` and `Iin`. -/
theorem integrate_eq_midpointSpec (o : Organoid N) (dt : ℝ) (Iin : Fin N → ℝ) :
    integrateVUA o dt Iin = midpointSpec o dt Iin := by
  unfold integrateVUA midpointSpec
  funext r i
  simp only [Pi.add_apply, Pi.sub_apply, Pi.smul_apply, smul_eq_mul]
  ring

/-- C10: at the end of every call to `step`, every neuron's membrane
voltage is at most its action-potential peak `Vp`: the post-step clamp sets
`V[i] := Vp[i]` exactly for every neuron detected with `V[i] >= Vp[i]`, and
the remaining neurons are already strictly below. -/
theorem step_peak_clamp (o : Organoid N) (dt : ℝ) (Iin : Fin N → ℝ) (i : Fin N) :
    (o.step dt Iin).V i ≤ (o.step dt Iin).Vp i := by
  unfold Organoid.step stepDetect Organoid.V
  simp only
  by_cases h :
      (stepSTDP (stepFired o) dt).Vp i ≤ integrateVUA (stepSTDP (stepFired o) dt) dt Iin 0 i
  · simp [h]
  · simp [h]
    push_neg at h
    exact le_of_lt h

/-- C8: after every call to `reset()`, every neuron has `V = Vr`,
`U = A = Adot = 0`, and if `Vr < Vp` holds for every neuron then the fired
set is all-false. -/
theorem reset_postcondition (o : Organoid N) :
    (∀ i, o.reset.V i = o.Vr i ∧ o.reset.U i = 0 ∧ o.reset.A i = 0 ∧ o.reset.Adot i = 0) ∧
    ((∀ j, o.Vr j < o.Vp j) → ∀ j, o.reset.fired j = false) := by
  constructor
  · intro i
    unfold Organoid.reset Organoid.V Organoid.U Organoid.A Organoid.Adot
    simp
  · intro h j
    unfold Organoid.reset
    simp only
    simp [not_le.mpr (h j)]

/-- C8 witness: the reset postcondition instantiated on the concrete
quiescent one-neuron organoid `oQuiet`, whose `Vr = 0 < 1 = Vp`. -/
theorem reset_postcondition_witness :
    oQuiet.reset.V 0 = oQuiet.Vr 0 ∧ oQuiet.reset.U 0 = 0 ∧ oQuiet.reset.fired 0 = false := by
  refine ⟨((reset_postcondition oQuiet).1 0).1, ((reset_postcondition oQuiet).1 0).2.1, ?_⟩
  refine (reset_postcondition oQuiet).2 ?_ 0
  intro j
  simp [oQuiet, mkOrganoid, Organoid.reset, zed]

/-- C3 counterexample: on the concrete one-neuron phase state `oHalf` with
`Adot = 1` and `tau = 2`, the derivative function returns `1/2 = Adot/tau`
as the rate of change of `A`, which differs from the value `Adot = 1`
stated by the claim. -/
theorem VUAdot_A_rate_cex :
    VUAdot oHalf zed 2 0 = 1 / 2 ∧ oHalf.Adot 0 = 1 ∧ VUAdot oHalf zed 2 0 ≠ oHalf.Adot 0 := by
  refine ⟨?_, ?_, ?_⟩ <;>
    simp [oHalf, oWit, mkOrganoid, Organoid.reset, VUAdot, Organoid.Adot, zed]

/-- C3 amended: for every phase state and every input current, the
derivative function returns `Adot[i] / tau[i]` (not `Adot[i]`) as the rate
of change of `A`, and `-(A[i] + 2*Adot[i]) / tau[i]` as the rate of change
of `Adot`. -/
theorem VUAdot_A_rate_amended (o : Organoid N) (Iin : Fin N → ℝ) (i : Fin N) :
    VUAdot o Iin 2 i = o.Adot i / o.tau i ∧
    VUAdot o Iin 3 i = -(o.A i + 2 * o.Adot i) / o.tau i := by
  unfold VUAdot
  simp

/-- C4 counterexample: starting from the freshly constructed `oStdp` (whose
neuron counts as fired immediately), one step raises the STDP traces to 1,
and a subsequent `reset()` leaves them at 1 rather than zeroing them. -/
theorem reset_keeps_traces_cex :
    oStdp.do_stdp = true ∧ (oStdp.step 1 zed).reset.traces 0 0 = 1 ∧ (1 : ℝ) ≠ 0 := by
  refine ⟨rfl, ?_, one_ne_zero⟩
  simp [oStdp, mkOrganoid, Organoid.reset, Organoid.step, stepFired, stepSTDP, stepDetect,
    integrateVUA, VUAdot, Organoid.V, Organoid.U, Organoid.A, Organoid.Adot, zed,
    Fin.sum_univ_one]

/-- C4 amended: `reset()` re-initializes the phase state (`V := Vr`,
`U = A = Adot = 0`) but leaves the STDP traces unchanged; the traces are
zeroed only at construction. -/
theorem reset_keeps_traces (o : Organoid N) :
    o.reset.traces = o.traces ∧
    (∀ i, o.reset.V i = o.Vr i ∧ o.reset.U i = 0 ∧ o.reset.A i = 0 ∧ o.reset.Adot i = 0) ∧
    (∀ (a b c d C k Vr Vt Vp Vn tau : Fin N → ℝ) (G : Fin N → Fin N → ℝ)
      (sf : Bool) (tp tm ty Ap Am : ℝ),
      (mkOrganoid a b c d C k Vr Vt Vp Vn tau G sf tp tm ty Ap Am).traces = fun _ _ => 0) := by
  refine ⟨rfl, ?_, fun _ _ _ _ _ _ _ _ _ _ _ _ _ _ _ _ _ _ => rfl⟩
  intro i
  unfold Organoid.reset Organoid.V Organoid.U Organoid.A Organoid.Adot
  simp


/-- C5: one-tick latency law.  If a call to `step` ends with neuron `i`
detected as fired, then at the end of that call `V[i]` equals `Vp[i]`
exactly; the discrete resets `V[i] := c[i]`, `U[i] += d[i]`,
`Adot[i] += 1` are applied by the pre-step correction, which is the first
phase of the next call to `step` (and a neuron not in the fired set at the
start of a call has its `V` and `U` left untouched by that phase). -/
theorem step_one_tick_latency (o : Organoid N) (dt : ℝ) (Iin : Fin N → ℝ) (i : Fin N)
    (h : (o.step dt Iin).fired i = true) :
    (o.step dt Iin).V i = o.Vp i ∧
    (stepFired (o.step dt Iin)).V i = o.c i ∧
    (stepFired (o.step dt Iin)).U i = (o.step dt Iin).U i + o.d i ∧
    (stepFired (o.step dt Iin)).Adot i = (o.step dt Iin).Adot i + 1 ∧
    (o.fired i = false → (stepFired o).V i = o.V i ∧ (stepFired o).U i = o.U i) ∧
    (∀ (p : Organoid N) (dt2 : ℝ) (Iin2 : Fin N → ℝ),
      p.step dt2 Iin2 =
        stepDetect { stepSTDP (stepFired p) dt2 with
          VUA := integrateVUA (stepSTDP (stepFired p) dt2) dt2 Iin2 }) := by
  have hVp : (stepSTDP (stepFired o) dt).Vp = o.Vp := by rw [stepSTDP_Vp, stepFired_Vp]
  have hc : (o.step dt Iin).c = o.c := step_c o dt Iin
  have hd : (o.step dt Iin).d = o.d := step_d o dt Iin
  refine ⟨?_, ?_, ?_, ?_, ?_, fun p dt2 Iin2 => rfl⟩
  · unfold Organoid.step stepDetect Organoid.V at h ⊢
    simp only at h ⊢
    rw [hVp] at h ⊢
    simp [h]
  · unfold stepFired Organoid.V
    simp only
    simp [h, hc]
  · unfold stepFired Organoid.U
    simp only
    simp [h, hd]
  · unfold stepFired Organoid.Adot
    simp only
    simp [h]
  · intro hf
    unfold stepFired Organoid.V Organoid.U
    simp [hf]

/-- C5 witness: on the concrete organoid `oWit`, whose single neuron sits
at its peak voltage, one step detects the neuron as fired, and the latency
law holds there. -/
theorem step_one_tick_latency_witness :
    (oWit.step 1 zed).fired 0 = true ∧ (oWit.step 1 zed).V 0 = oWit.Vp 0 ∧
    (stepFired (oWit.step 1 zed)).V 0 = oWit.c 0 := by
  have hf : (oWit.step 1 zed).fired 0 = true := by
    simp [oWit, mkOrganoid, Organoid.reset, Organoid.step, stepFired, stepSTDP, stepDetect,
      integrateVUA, VUAdot, Organoid.V, Organoid.U, Organoid.A, Organoid.Adot, zed,
      Fin.sum_univ_one]
  have h := step_one_tick_latency oWit 1 zed 0 hf
  exact ⟨hf, h.1, h.2.1⟩

/-- C7: with STDP enabled and a non-empty fired set, `step` updates the
weight matrix from trace values read before this call's decay/increment:
`G[i,j]` loses `Aminus * trace_minus[j]` for every fired presynaptic `j`,
then gains `Aplus * trace_plus[j] * trace_y[i]` for every fired
postsynaptic `i`; afterwards each trace row decays by its factor and is
incremented by 1 in every fired neuron's column. -/
theorem stdp_weight_update (o : Organoid N) (dt : ℝ) (Iin : Fin N → ℝ)
    (hstdp : o.do_stdp = true) (hany : ∃ i, o.fired i = true) :
    (∀ i j, (o.step dt Iin).G i j =
        o.G i j - (if o.fired j then o.Aminus * o.traces 1 j else 0)
          + (if o.fired i then o.Aplus * (o.traces 0 j * o.traces 2 i) else 0)) ∧
    (∀ r i, (o.step dt Iin).traces r i =
        o.traces r i * Real.exp (dt / o.tau_stdp r) + (if o.fired i then 1 else 0)) := by
  unfold Organoid.step stepDetect stepSTDP stepFired
  simp only [hstdp, if_pos]
  simp [hany]
  constructor
  · intro i j
    by_cases hi : o.fired i <;> by_cases hj : o.fired j <;> simp [hi, hj]
  · intro r i
    by_cases hi : o.fired i <;> simp [hi]

/-- C7 witness: the STDP update law instantiated on the concrete organoid
`oStdp`, whose single neuron is in the fired set directly after
construction. -/
theorem stdp_weight_update_witness :
    oStdp.do_stdp = true ∧ oStdp.fired 0 = true ∧
    (oStdp.step 1 zed).traces 0 0 = oStdp.traces 0 0 * Real.exp (1 / oStdp.tau_stdp 0) + 1 ∧
    (oStdp.step 1 zed).G 0 0 = oStdp.G 0 0 - oStdp.Aminus * oStdp.traces 1 0
      + oStdp.Aplus * (oStdp.traces 0 0 * oStdp.traces 2 0) := by
  have hf : oStdp.fired 0 = true := by simp [oStdp, mkOrganoid, Organoid.reset, zed]
  have h := stdp_weight_update oStdp 1 zed rfl ⟨0, hf⟩
  refine ⟨rfl, hf, ?_, ?_⟩
  · have ht := h.2 0 0
    simp [hf] at ht
    rw [one_div]
    exact ht
  · have hg := h.1 0 0
    simp [hf] at hg
    exact hg

/-- C2: the claim states that with STDP enabled and no neuron fired, every
trace is multiplied by `exp(-dt / tau_component)` each step; the code
multiplies by `exp(dt / tau_stdp)` instead (its own comment announces a
decay), so traces grow.  Concretely: after the construction-firing step of
`oStdp` the `trace_plus` value is 1 and the neuron is silent; the next
step (with `dt = 1`, `tau_plus = 15`) leaves `exp(1/15)`, which is greater
than 1 and different from the claimed `exp(-1/15)`. -/
theorem stdp_traces_grow_not_decay :
    oStdp.tau_stdp 0 = 15 ∧
    (oStdp.step 1 zed).traces 0 0 = 1 ∧
    (oStdp.step 1 zed).fired 0 = false ∧
    ((oStdp.step 1 zed).step 1 zed).traces 0 0 = Real.exp (1 / 15) ∧
    1 < Real.exp (1 / 15) ∧ Real.exp (1 / 15) ≠ Real.exp (-(1 / 15)) := by
  refine ⟨rfl, ?_, ?_, ?_, ?_, ?_⟩
  · simp [oStdp, mkOrganoid, Organoid.reset, Organoid.step, stepFired, stepSTDP, stepDetect,
      integrateVUA, VUAdot, Organoid.V, Organoid.U, Organoid.A, Organoid.Adot, zed,
      Fin.sum_univ_one]
  · simp [oStdp, mkOrganoid, Organoid.reset, Organoid.step, stepFired, stepSTDP, stepDetect,
      integrateVUA, VUAdot, Organoid.V, Organoid.U, Organoid.A, Organoid.Adot, zed,
      Fin.sum_univ_one]
  · simp [oStdp, mkOrganoid, Organoid.reset, Organoid.step, stepFired, stepSTDP, stepDetect,
      integrateVUA, VUAdot, Organoid.V, Organoid.U, Organoid.A, Organoid.Adot, zed,
      Fin.sum_univ_one]
    norm_num
  · exact Real.one_lt_exp_iff.mpr (by norm_num)
  · intro hcontra
    have := Real.exp_eq_exp.mp hcontra
    norm_num at this

/-- C1 counterexample: constructing with a 3-row, 2-column (non-square)
`G` and a coefficient vector `a` of length 4 succeeds and produces an
object, although the claim requires a `DimensionMismatch` failure. -/
theorem init_no_dimension_check_cex :
    (initPy gBad vec4 vec3 vec3 vec3 vec3 vec3 vec3 vec3 vec3 vec3 vec3 false).isOk = true ∧
    vec4.length ≠ gBad.length ∧ gBad.headI.length ≠ gBad.length :=
  ⟨rfl, by decide, by decide⟩

/-- C1 amended: construction validates no dimensions.  It succeeds whenever
`Vr` and `Vp` have length `N` (the number of rows of `G`), regardless of
the lengths of the nine other coefficient vectors and of the column count
of `G`; the only construction failures are numpy broadcast errors raised
inside the `reset()` call when `Vr` or `Vp` cannot be broadcast against
the length-`N` voltage row, and no `DimensionMismatch` error exists. -/
theorem init_succeeds_without_length_checks (G : List (List ℝ))
    (a b c d C k Vr Vt Vp Vn tau : List ℝ) (sf : Bool)
    (hVr : Vr.length = G.length) (hVp : Vp.length = G.length) :
    (initPy G a b c d C k Vr Vt Vp Vn tau sf).isOk = true := by
  unfold initPy broadcastTo geBroadcast
  simp [hVr, hVp, Except.isOk, Except.toBool]

/-- C1 witness: the amended construction law applied at a concrete input
with a length-4 vector `b` and a non-square `G`. -/
theorem init_succeeds_without_length_checks_witness :
    (initPy gBad vec3 vec4 vec3 vec3 vec3 vec3 vec3 vec3 vec3 vec3 vec3 true).isOk = true :=
  init_succeeds_without_length_checks gBad vec3 vec4 vec3 vec3 vec3 vec3 vec3 vec3 vec3 vec3
    vec3 true rfl rfl

/-- C9: determinism as a two-run property.  Two organoids that agree on
every parameter, the initial weight matrix, the packed phase state, the
fired set and the full STDP configuration produce identical phase state,
fired set, weight matrix and traces after any identical sequence of
`(dt, Iin)` step calls. -/
theorem step_deterministic (o1 o2 : Organoid N)
    (ha : o1.a = o2.a) (hb : o1.b = o2.b) (hc : o1.c = o2.c) (hd : o1.d = o2.d)
    (hC : o1.C = o2.C) (hk : o1.k = o2.k) (hVr : o1.Vr = o2.Vr) (hVt : o1.Vt = o2.Vt)
    (hVp : o1.Vp = o2.Vp) (hVn : o1.Vn = o2.Vn) (htau : o1.tau = o2.tau)
    (hG : o1.G = o2.G) (hVUA : o1.VUA = o2.VUA) (hf : o1.fired = o2.fired)
    (hds : o1.do_stdp = o2.do_stdp) (htr : o1.traces = o2.traces)
    (hts : o1.tau_stdp = o2.tau_stdp) (hAp : o1.Aplus = o2.Aplus)
    (hAm : o1.Aminus = o2.Aminus) (l : List (ℝ × (Fin N → ℝ))) :
    (runSteps o1 l).VUA = (runSteps o2 l).VUA ∧
    (runSteps o1 l).fired = (runSteps o2 l).fired ∧
    (runSteps o1 l).G = (runSteps o2 l).G ∧
    (runSteps o1 l).traces = (runSteps o2 l).traces := by
  obtain rfl : o1 = o2 := by
    cases o1; cases o2
    simp_all
  exact ⟨rfl, rfl, rfl, rfl⟩

/-- C9 witness: the determinism law applied to two copies of the concrete
organoid `oQuiet` over a one-step input sequence. -/
theorem step_deterministic_witness :
    (runSteps oQuiet [(1, zed)]).VUA = (runSteps oQuiet [(1, zed)]).VUA ∧
    (runSteps oQuiet [(1, zed)]).fired = (runSteps oQuiet [(1, zed)]).fired ∧
    (runSteps oQuiet [(1, zed)]).G = (runSteps oQuiet [(1, zed)]).G ∧
    (runSteps oQuiet [(1, zed)]).traces = (runSteps oQuiet [(1, zed)]).traces :=
  step_deterministic oQuiet oQuiet rfl rfl rfl rfl rfl rfl rfl rfl rfl rfl rfl rfl rfl rfl
    rfl rfl rfl rfl rfl [(1, zed)]

end
